import Mathlib

/-!
Shallow embedding of `app/models.py` of DermHub-Frontend-test: the `users`
schema with its `signup` / `authenticate` class methods, the questionnaire
schema (`consult_forms`, `consult_questions`, `followup_questions`) with its
`to_dict` serializers and the declared relationship cascades, and the
transactional unit of work (`db.session.add` / commit) the module drives.

The password hasher (`flask_bcrypt`) and the persistence session
(`flask_sqlalchemy`) are external libraries, not code of this repository;
their behavior, where a claim depends on it, is modelled from the spec and
marked as such in the corresponding doc comments.
-/

namespace DermHub

/-- Modelled from the spec: the hash string produced by flask_bcrypt's
`generate_password_hash` (the library itself is not part of this repository).
The spec describes it as a salted, adaptive, one-way encoding whose embedded
salt lets `verify` recompute the digest.  We model the opaque hash string by
its parsed content: the random salt and the keyed digest; since the digest is
injective in the password for a fixed salt, it is represented by the password
it was derived from, and `render` gives the literal text stored in the
database column. -/
structure BcryptHash where
  salt : Nat
  digest : String
deriving DecidableEq

/-- Modelled from the spec: `hash(password) -> hashString`, salted by a
randomly drawn `salt` supplied here as an explicit parameter (the model of the
library's random salt generation). -/
def generate_password_hash (salt : Nat) (password : String) : BcryptHash :=
  { salt := salt, digest := password }

/-- Modelled from the spec: `verify(hashString, candidate) -> bool` recomputes
the digest of the candidate with the salt embedded in the hash string and
compares. -/
def check_password_hash (pw_hash : BcryptHash) (candidate : String) : Bool :=
  decide (generate_password_hash pw_hash.salt candidate = pw_hash)

/-- Modelled from the spec: the textual form `$2b$12$<salt><digest>` of a
bcrypt hash string, as stored in the `password_hashed` column.  The salt field
is rendered injectively as a run of `salt` copies of `A` (standing for the
base64 salt block); the claims depend only on the salt being embedded in the
text and on the text never coinciding with the plaintext password. -/
def BcryptHash.render (h : BcryptHash) : String :=
  "$2b$12$" ++ String.replicate h.salt 'A' ++ "$" ++ h.digest

/-- A row of table `users` (`class User(db.Model)` in `app/models.py`).
`created_at` / `updated_at` are server-generated timestamps (`func.now()`),
set by the database and never read by the embedded operations, so they are
omitted.  `id` is the autoincrement primary key: `none` while the row is
transient, assigned at flush. -/
structure User where
  id : Option Nat
  username : String
  email : String
  password_hashed : BcryptHash
  first_name : Option String
  last_name : Option String
  has_medical_history : Bool
  is_admin : Bool
deriving DecidableEq

/-- The committed rows of table `users`, plus the autoincrement counter. -/
structure Store where
  users : List User
  nextId : Nat
deriving DecidableEq

/-- Modelled from the spec: the flask_sqlalchemy unit of work (`db.session`),
an external collaborator — the committed store plus the list of rows staged by
`db.session.add` and not yet flushed. -/
structure Session where
  store : Store
  staged : List User
deriving DecidableEq

/-- `User.signup(username, email, password, first_name=None, last_name=None)`:
hashes the password, constructs a transient `User`, stages it with
`db.session.add`, and returns it.  `salt` is the random salt drawn by the
hasher for this call.  `has_medical_history` and `is_admin` are not passed to
the constructor, so the column defaults (`default=False`) apply. -/
def User.signup (sess : Session) (salt : Nat) (username email password : String)
    (first_name last_name : Option String) : User × Session :=
  let hashed_pwd := generate_password_hash salt password
  let user : User :=
    { id := none
      username := username
      email := email
      password_hashed := hashed_pwd
      first_name := first_name
      last_name := last_name
      has_medical_history := false
      is_admin := false }
  (user, { sess with staged := sess.staged ++ [user] })

/-- The `User | False` result of `User.authenticate`. -/
inductive AuthResult where
  | user (u : User)
  | falseLit
deriving DecidableEq

/-- `User.authenticate(username, password)`:
`cls.query.filter_by(username=username).first()` (the first committed row with
that username, `None` if there is none), then the bcrypt check; returns the
user on success and the literal `False` otherwise. -/
def User.authenticate (st : Store) (username password : String) : AuthResult :=
  match st.users.find? (fun u => u.username == username) with
  | some user =>
      if check_password_hash user.password_hashed password then
        AuthResult.user user
      else
        AuthResult.falseLit
  | none => AuthResult.falseLit

/-- Modelled from the spec: the error taxonomy of the store —
«UniquenessViolation … surfaced by the store at commit time». -/
inductive DbError where
  | uniquenessViolation
deriving DecidableEq

/-- Whether inserting `u` would violate the UNIQUE constraints declared on
`users.username` and `users.email` against the already-inserted rows. -/
def conflicts (rows : List User) (u : User) : Bool :=
  rows.any (fun v => v.username == u.username || v.email == u.email)

/-- Modelled from the spec: flushing the staged rows one by one, assigning
autoincrement ids; the first uniqueness violation aborts the flush. -/
def flushInto (st : Store) : List User → Except DbError Store
  | [] => Except.ok st
  | u :: rest =>
      if conflicts st.users u then
        Except.error DbError.uniquenessViolation
      else
        flushInto
          { users := st.users ++ [{ u with id := some st.nextId }]
            nextId := st.nextId + 1 }
          rest

/-- Modelled from the spec: `db.session.commit()` — flush the staged rows and
finalize, or raise the uniqueness violation; a failed commit is rolled back,
so no store is produced and the caller's view of the committed rows is
unchanged. -/
def commit (sess : Session) : Except DbError Session :=
  (flushInto sess.store sess.staged).map (fun st => { store := st, staged := [] })

/-- A row of table `consult_forms`. -/
structure ConsultForm where
  id : Nat
  name : String
deriving DecidableEq

/-- A row of table `consult_questions`. -/
structure ConsultQuestion where
  id : Nat
  prompt : String
  form_id : Nat
deriving DecidableEq

/-- A row of table `followup_questions`. -/
structure FollowupQuestions where
  id : Nat
  prompt : String
  parent_question_id : Nat
deriving DecidableEq

/-- The committed questionnaire content: forms, questions, followups. -/
structure ContentStore where
  forms : List ConsultForm
  questions : List ConsultQuestion
  followups : List FollowupQuestions
deriving DecidableEq

/-- A Python value as produced by the `to_dict` serializers. -/
inductive PyValue where
  | int (n : Nat)
  | str (s : String)
  | list (xs : List PyValue)
  | dict (fields : List (String × PyValue))

/-- `FollowupQuestions.to_dict(self)`. -/
def FollowupQuestions.to_dict (fq : FollowupQuestions) : PyValue :=
  PyValue.dict
    [("id", PyValue.int fq.id),
     ("prompt", PyValue.str fq.prompt),
     ("parent_question_id", PyValue.int fq.parent_question_id)]

/-- The `ConsultQuestion.followups` relationship (backref `parent_question`):
the `followup_questions` rows whose `parent_question_id` is this question's
id. -/
def ConsultQuestion.followupsOf (st : ContentStore) (q : ConsultQuestion) :
    List FollowupQuestions :=
  st.followups.filter (fun fq => fq.parent_question_id == q.id)

/-- `ConsultQuestion.to_dict(self)`: the scalar columns plus the serialized
`followups` relationship. -/
def ConsultQuestion.to_dict (st : ContentStore) (q : ConsultQuestion) : PyValue :=
  PyValue.dict
    [("id", PyValue.int q.id),
     ("prompt", PyValue.str q.prompt),
     ("form_id", PyValue.int q.form_id),
     ("followups", PyValue.list ((q.followupsOf st).map FollowupQuestions.to_dict))]

/-- Modelled from the spec: deleting a `ConsultForm` through the session (the
delete machinery is flask_sqlalchemy's, not this repository's).  The
`ConsultForm.questions` relationship declares `cascade="all, delete-orphan"`,
so the form's `consult_questions` rows are deleted with it; no cascade is
declared on `ConsultQuestion.followups`, so `followup_questions` rows are left
untouched and become orphaned. -/
def deleteForm (st : ContentStore) (fid : Nat) : ContentStore :=
  { forms := st.forms.filter (fun f => f.id != fid)
    questions := st.questions.filter (fun q => q.form_id != fid)
    followups := st.followups }

/-- The hash check succeeds exactly on the hashed password. -/
theorem check_generate (salt : Nat) (p c : String) :
    check_password_hash (generate_password_hash salt p) c = true ↔ c = p := by
  simp [check_password_hash, generate_password_hash, BcryptHash.mk.injEq]

/-- Length of the rendered hash string. -/
theorem render_length (h : BcryptHash) :
    h.render.length = 8 + h.salt + h.digest.length := by
  have h7 : ("$2b$12$" : String).length = 7 := rfl
  have h1 : ("$" : String).length = 1 := rfl
  simp [BcryptHash.render, String.length_append, String.length_replicate, h7, h1]
  omega

/-- The rendered hash string never equals the plaintext password. -/
theorem render_ne_plaintext (salt : Nat) (p : String) :
    (generate_password_hash salt p).render ≠ p := by
  intro hEq
  have hlen := congrArg String.length hEq
  rw [render_length] at hlen
  simp [generate_password_hash] at hlen

/-- Distinct salts render to distinct hash strings. -/
theorem render_inj_salt {s₁ s₂ : Nat} {p : String} (h : s₁ ≠ s₂) :
    (generate_password_hash s₁ p).render ≠ (generate_password_hash s₂ p).render := by
  intro hEq
  have hlen := congrArg String.length hEq
  rw [render_length, render_length] at hlen
  simp [generate_password_hash] at hlen
  exact h (by omega)

/-- C4: for every password p and salt, `check_password_hash` accepts p against
`generate_password_hash p` and rejects the modified candidate `p ++ "x"`. -/
theorem hash_verify_roundtrip (salt : Nat) (p : String) :
    check_password_hash (generate_password_hash salt p) p = true ∧
    check_password_hash (generate_password_hash salt p) (p ++ "x") = false := by
  constructor
  · exact (check_generate salt p p).mpr rfl
  · rw [Bool.eq_false_iff]
    intro hchk
    have hpx : p ++ "x" = p := (check_generate salt p (p ++ "x")).mp hchk
    have hlen := congrArg String.length hpx
    rw [String.length_append] at hlen
    have hx : ("x" : String).length = 1 := rfl
    omega

/-- C5: hashing the same password with two distinct (randomly drawn) salts
produces two distinct hash values, whose rendered hash strings also differ,
and both verify against the original password. -/
theorem hash_salted_distinct (s₁ s₂ : Nat) (p : String) (h : s₁ ≠ s₂) :
    generate_password_hash s₁ p ≠ generate_password_hash s₂ p ∧
    (generate_password_hash s₁ p).render ≠ (generate_password_hash s₂ p).render ∧
    check_password_hash (generate_password_hash s₁ p) p = true ∧
    check_password_hash (generate_password_hash s₂ p) p = true := by
  refine ⟨?_, render_inj_salt h, (check_generate s₁ p p).mpr rfl,
    (check_generate s₂ p p).mpr rfl⟩
  intro hEq
  exact h (congrArg BcryptHash.salt hEq)

/-- C5 witness: salts 1 and 2 on password "hunter2". -/
theorem hash_salted_distinct_witness :
    generate_password_hash 1 "hunter2" ≠ generate_password_hash 2 "hunter2" ∧
    (generate_password_hash 1 "hunter2").render ≠ (generate_password_hash 2 "hunter2").render ∧
    check_password_hash (generate_password_hash 1 "hunter2") "hunter2" = true ∧
    check_password_hash (generate_password_hash 2 "hunter2") "hunter2" = true :=
  hash_salted_distinct 1 2 "hunter2" (by decide)

/-- C2: `signup` returns a transient user whose fields equal the inputs and
whose `password_hashed` is the hash of the given password, appends exactly
that user to the staged rows, and leaves the committed store untouched (no
commit, and no pre-check of username/email uniqueness: this holds for every
session, including one whose store already contains the same username or
email). -/
theorem signup_spec (sess : Session) (salt : Nat) (username email password : String)
    (first_name last_name : Option String) :
    (User.signup sess salt username email password first_name last_name).1.username = username ∧
    (User.signup sess salt username email password first_name last_name).1.email = email ∧
    (User.signup sess salt username email password first_name last_name).1.password_hashed =
      generate_password_hash salt password ∧
    (User.signup sess salt username email password first_name last_name).1.first_name = first_name ∧
    (User.signup sess salt username email password first_name last_name).1.last_name = last_name ∧
    (User.signup sess salt username email password first_name last_name).2.staged =
      sess.staged ++ [(User.signup sess salt username email password first_name last_name).1] ∧
    (User.signup sess salt username email password first_name last_name).2.store = sess.store :=
  ⟨rfl, rfl, rfl, rfl, rfl, rfl, rfl⟩

/-- C10: the user constructed by `signup` carries the column defaults
`is_admin = False` and `has_medical_history = False`: signup never sets these
fields, so it can never create an administrator account. -/
theorem signup_not_admin (sess : Session) (salt : Nat) (username email password : String)
    (first_name last_name : Option String) :
    (User.signup sess salt username email password first_name last_name).1.is_admin = false ∧
    (User.signup sess salt username email password first_name last_name).1.has_medical_history
      = false :=
  ⟨rfl, rfl⟩

/-- C1: `authenticate` returns the literal `False` (it is total, raising no
error) when no stored user has the given username; it returns `False` when
the stored user with that username fails the hash check; and it returns a
`User` object only when that user is stored under the given username and the
password verifies. -/
theorem authenticate_spec (st : Store) (username password : String) :
    ((∀ u ∈ st.users, u.username ≠ username) →
      User.authenticate st username password = AuthResult.falseLit) ∧
    (∀ u ∈ st.users, u.username = username →
      (∀ v ∈ st.users, v.username = username → v = u) →
      check_password_hash u.password_hashed password = false →
      User.authenticate st username password = AuthResult.falseLit) ∧
    (∀ u, User.authenticate st username password = AuthResult.user u →
      u ∈ st.users ∧ u.username = username ∧
      check_password_hash u.password_hashed password = true) := by
  refine ⟨?_, ?_, ?_⟩
  · intro h
    unfold User.authenticate
    have hnone : st.users.find? (fun v => v.username == username) = none :=
      List.find?_eq_none.mpr (fun x hx => by simpa using h x hx)
    rw [hnone]
  · intro u hu hname huniq hchk
    unfold User.authenticate
    cases hfind : st.users.find? (fun v => v.username == username) with
    | none => rfl
    | some v =>
        have hveq : v = u :=
          huniq v (List.mem_of_find?_eq_some hfind) (by simpa using List.find?_some hfind)
        rw [hveq]
        simp [hchk]
  · intro u hres
    revert hres
    unfold User.authenticate
    cases hfind : st.users.find? (fun v => v.username == username) with
    | none => intro hres; exact AuthResult.noConfusion hres
    | some v =>
        intro hres
        by_cases hc : check_password_hash v.password_hashed password = true
        · simp only [hc, if_true] at hres
          injection hres with hvu
          subst hvu
          exact ⟨List.mem_of_find?_eq_some hfind, by simpa using List.find?_some hfind, hc⟩
        · rw [Bool.not_eq_true] at hc
          simp [hc] at hres

/-- A committed demo user, for the concrete instantiations below. -/
def demoUser : User :=
  { id := some 1
    username := "alice"
    email := "alice@example.com"
    password_hashed := generate_password_hash 7 "hunter2"
    first_name := none
    last_name := none
    has_medical_history := false
    is_admin := false }

/-- A committed demo store holding `demoUser`. -/
def demoStore : Store :=
  { users := [demoUser], nextId := 2 }

/-- C1 witness: on the demo store, an unknown username yields `False`, the
known username with a wrong password yields `False`, and whenever a user is
returned for ("alice", "hunter2") it is a stored row with a verifying
password. -/
theorem authenticate_spec_witness :
    User.authenticate demoStore "bob" "pw" = AuthResult.falseLit ∧
    User.authenticate demoStore "alice" "wrong" = AuthResult.falseLit ∧
    (demoUser ∈ demoStore.users ∧ demoUser.username = "alice" ∧
      check_password_hash demoUser.password_hashed "hunter2" = true) :=
  ⟨(authenticate_spec demoStore "bob" "pw").1 (by decide),
   (authenticate_spec demoStore "alice" "wrong").2.1 demoUser (by decide) (by decide)
     (by decide) (by decide),
   (authenticate_spec demoStore "alice" "hunter2").2.2 demoUser (by decide)⟩

/-- C3: for every valid input (username and email free in the store), signup
followed by a successful commit followed by `authenticate(username, password)`
returns a user whose `username` equals the input and whose stored
`password_hashed` (as the text stored in the column) never equals the
plaintext password. -/
theorem signup_commit_authenticate (st : Store) (salt : Nat)
    (username email password : String)
    (hu : ∀ v ∈ st.users, v.username ≠ username)
    (he : ∀ v ∈ st.users, v.email ≠ email) :
    ∃ sess : Session,
      commit (User.signup { store := st, staged := [] } salt
          username email password none none).2 = Except.ok sess ∧
      ∃ w : User,
        User.authenticate sess.store username password = AuthResult.user w ∧
        w.username = username ∧
        w.password_hashed.render ≠ password := by
  have hconf : conflicts st.users
      { id := none, username := username, email := email,
        password_hashed := generate_password_hash salt password,
        first_name := none, last_name := none,
        has_medical_history := false, is_admin := false } = false := by
    rw [conflicts, List.any_eq_false]
    intro v hv
    simp [hu v hv, he v hv]
  refine ⟨⟨⟨st.users ++
      [⟨some st.nextId, username, email, generate_password_hash salt password,
        none, none, false, false⟩],
      st.nextId + 1⟩, []⟩, ?_,
    ⟨some st.nextId, username, email, generate_password_hash salt password,
      none, none, false, false⟩,
    ?_, rfl, render_ne_plaintext salt password⟩
  · simp [User.signup, commit, flushInto, hconf, Except.map]
  · have hL : st.users.find? (fun v => v.username == username) = none :=
      List.find?_eq_none.mpr (fun x hx => by simpa using hu x hx)
    simp [User.authenticate, check_password_hash, generate_password_hash, hL]

/-- C3 witness: signup then commit then authenticate on an empty store. -/
theorem signup_commit_authenticate_witness :
    ∃ sess : Session,
      commit (User.signup { store := { users := [], nextId := 1 }, staged := [] } 5
          "alice" "alice@example.com" "hunter2" none none).2 = Except.ok sess ∧
      ∃ w : User,
        User.authenticate sess.store "alice" "hunter2" = AuthResult.user w ∧
        w.username = "alice" ∧
        w.password_hashed.render ≠ "hunter2" :=
  signup_commit_authenticate { users := [], nextId := 1 } 5
    "alice" "alice@example.com" "hunter2" (by simp) (by simp)

/-- C6: starting from a store in which u₁ and e are free, committing a signup
for (u₁, e) succeeds; then committing a second signup with the same email e
and a different username u₂ raises the uniqueness violation, and the committed
store still holds exactly one row with email e — the first signup's. -/
theorem duplicate_email_commit (st : Store) (salt₁ salt₂ : Nat)
    (u₁ u₂ e p₁ p₂ : String)
    (hfresh : ∀ v ∈ st.users, v.username ≠ u₁ ∧ v.email ≠ e)
    (hne : u₂ ≠ u₁) :
    ∃ sess₁ : Session,
      commit (User.signup { store := st, staged := [] } salt₁ u₁ e p₁ none none).2
        = Except.ok sess₁ ∧
      commit (User.signup sess₁ salt₂ u₂ e p₂ none none).2
        = Except.error DbError.uniquenessViolation ∧
      (sess₁.store.users.filter (fun v => v.email == e)).map User.username = [u₁] := by
  have hconf₁ : conflicts st.users
      { id := none, username := u₁, email := e,
        password_hashed := generate_password_hash salt₁ p₁,
        first_name := none, last_name := none,
        has_medical_history := false, is_admin := false } = false := by
    rw [conflicts, List.any_eq_false]
    intro v hv
    simp [(hfresh v hv).1, (hfresh v hv).2]
  refine ⟨⟨⟨st.users ++
      [⟨some st.nextId, u₁, e, generate_password_hash salt₁ p₁,
        none, none, false, false⟩],
      st.nextId + 1⟩, []⟩, ?_, ?_, ?_⟩
  · simp [User.signup, commit, flushInto, hconf₁, Except.map]
  · have hconf₂ : conflicts
        (st.users ++
          [⟨some st.nextId, u₁, e, generate_password_hash salt₁ p₁,
            none, none, false, false⟩])
        { id := none, username := u₂, email := e,
          password_hashed := generate_password_hash salt₂ p₂,
          first_name := none, last_name := none,
          has_medical_history := false, is_admin := false } = true := by
      rw [conflicts, List.any_eq_true]
      refine ⟨_, List.mem_append_right _ (List.mem_singleton.mpr rfl), ?_⟩
      simp
    simp [User.signup, commit, flushInto, hconf₂, Except.map]
  · have hfe : st.users.filter (fun v => v.email == e) = [] :=
      List.filter_eq_nil_iff.mpr (fun v hv => by simp [(hfresh v hv).2])
    rw [List.filter_append, hfe]
    simp

/-- C6 witness: two signups with email "dup@example.com" on an empty store. -/
theorem duplicate_email_commit_witness :
    ∃ sess₁ : Session,
      commit (User.signup { store := { users := [], nextId := 1 }, staged := [] } 3
          "alice" "dup@example.com" "pw1" none none).2 = Except.ok sess₁ ∧
      commit (User.signup sess₁ 4 "bob" "dup@example.com" "pw2" none none).2
        = Except.error DbError.uniquenessViolation ∧
      (sess₁.store.users.filter (fun v => v.email == "dup@example.com")).map User.username
        = ["alice"] :=
  duplicate_email_commit { users := [], nextId := 1 } 3 4
    "alice" "bob" "dup@example.com" "pw1" "pw2" (by simp) (by decide)

/-- C7: deleting a ConsultForm removes exactly the ConsultQuestion rows whose
`form_id` references that form (the declared `cascade="all, delete-orphan"`),
while the followup_questions table is left entirely unchanged: followups of a
deleted question are not deleted and remain as orphaned rows. -/
theorem deleteForm_cascade (st : ContentStore) (fid : Nat) :
    (∀ q ∈ (deleteForm st fid).questions, q.form_id ≠ fid) ∧
    (∀ q ∈ st.questions, q.form_id ≠ fid → q ∈ (deleteForm st fid).questions) ∧
    (deleteForm st fid).followups = st.followups ∧
    (∀ fq ∈ st.followups, fq ∈ (deleteForm st fid).followups) := by
  refine ⟨?_, ?_, rfl, fun fq h => h⟩
  · intro q hq
    have hb := (List.mem_filter.mp hq).2
    simpa using hb
  · intro q hq hne
    exact List.mem_filter.mpr ⟨hq, by simpa using hne⟩

/-- Demo questionnaire content: one form, one question, one followup. -/
def demoContent : ContentStore :=
  { forms := [{ id := 1, name := "intake" }]
    questions := [{ id := 10, prompt := "Where is the lesion?", form_id := 1 }]
    followups := [{ id := 100, prompt := "Since when?", parent_question_id := 10 }] }

/-- C7 witness: after deleting form 1 from the demo content, the followup of
its (deleted) question is still present as an orphaned row. -/
theorem deleteForm_cascade_witness :
    ({ id := 100, prompt := "Since when?", parent_question_id := 10 } : FollowupQuestions)
      ∈ (deleteForm demoContent 1).followups :=
  (deleteForm_cascade demoContent 1).2.2.2
    { id := 100, prompt := "Since when?", parent_question_id := 10 } (by decide)

/-- C8: on a question whose `followups` relationship holds exactly two rows,
`to_dict` returns the map with keys id, prompt, form_id and followups, the
latter a list of exactly two maps carrying each followup row's id, prompt and
parent_question_id. -/
theorem to_dict_two_followups (st : ContentStore) (q : ConsultQuestion)
    (f₁ f₂ : FollowupQuestions)
    (h : q.followupsOf st = [f₁, f₂]) :
    q.to_dict st = PyValue.dict
      [("id", PyValue.int q.id),
       ("prompt", PyValue.str q.prompt),
       ("form_id", PyValue.int q.form_id),
       ("followups", PyValue.list
         [PyValue.dict
            [("id", PyValue.int f₁.id),
             ("prompt", PyValue.str f₁.prompt),
             ("parent_question_id", PyValue.int f₁.parent_question_id)],
          PyValue.dict
            [("id", PyValue.int f₂.id),
             ("prompt", PyValue.str f₂.prompt),
             ("parent_question_id", PyValue.int f₂.parent_question_id)]])] := by
  simp [ConsultQuestion.to_dict, FollowupQuestions.to_dict, h]

/-- A demo question with exactly two followups, for the C8 instantiation. -/
def demoContent₂ : ContentStore :=
  { forms := [{ id := 1, name := "intake" }]
    questions := [{ id := 10, prompt := "Where is the lesion?", form_id := 1 }]
    followups := [{ id := 100, prompt := "Since when?", parent_question_id := 10 },
                  { id := 101, prompt := "Does it itch?", parent_question_id := 10 }] }

/-- C8 witness: serializing the demo question with its two followups. -/
theorem to_dict_two_followups_witness :
    ConsultQuestion.to_dict demoContent₂ { id := 10, prompt := "Where is the lesion?", form_id := 1 }
      = PyValue.dict
      [("id", PyValue.int 10),
       ("prompt", PyValue.str "Where is the lesion?"),
       ("form_id", PyValue.int 1),
       ("followups", PyValue.list
         [PyValue.dict
            [("id", PyValue.int 100),
             ("prompt", PyValue.str "Since when?"),
             ("parent_question_id", PyValue.int 10)],
          PyValue.dict
            [("id", PyValue.int 101),
             ("prompt", PyValue.str "Does it itch?"),
             ("parent_question_id", PyValue.int 10)]])] :=
  to_dict_two_followups demoContent₂
    { id := 10, prompt := "Where is the lesion?", form_id := 1 }
    { id := 100, prompt := "Since when?", parent_question_id := 10 }
    { id := 101, prompt := "Does it itch?", parent_question_id := 10 }
    (by decide)

end DermHub
